import Mathlib

/-!
Shallow embedding of `src/weather.py` (class WeatherApp): a GUI weather
client that reads a city name, performs one HTTP GET against the
OpenWeatherMap API, and maps the outcome onto three output label regions.
Numbers from the JSON body are modelled as rationals; Python exceptions
(KeyError, IndexError, TypeError) as an `Except` error type; the GUI
labels as a record of strings; the single `requests.get` call as a
natural-number call counter returned alongside the resulting state.
-/

namespace WeatherApp

/-- A Python exception that the handler in `get_weather` does not catch. -/
inductive PyError where
  | keyError (key : String)
  | indexError
  | typeError
  deriving DecidableEq, Repr

/-- JSON values as delivered by `response.json()`; numbers are rationals. -/
inductive Json where
  | num (q : ℚ)
  | str (s : String)
  | arr (elems : List Json)
  | obj (fields : List (String × Json))

/-- Python `data[key]` on a dict: KeyError when the key is absent,
TypeError when the value is not a dict. -/
def Json.getKey : Json → String → Except PyError Json
  | .obj fields, key =>
      match fields.lookup key with
      | some v => .ok v
      | none => .error (.keyError key)
  | _, _ => .error .typeError

/-- Python `data[i]` on a list: IndexError past the end, TypeError when
the value is not a list. -/
def Json.getIdx : Json → Nat → Except PyError Json
  | .arr elems, i =>
      match elems.get? i with
      | some v => .ok v
      | none => .error .indexError
  | _, _ => .error .typeError

/-- Use a JSON value as a number; anything else is a TypeError. -/
def Json.asNum : Json → Except PyError ℚ
  | .num q => .ok q
  | _ => .error .typeError

/-- Use a JSON value as a string; anything else is a TypeError. -/
def Json.asStr : Json → Except PyError String
  | .str s => .ok s
  | _ => .error .typeError

/-- Python `data["cod"] == 200`: true exactly for the number 200; a
string such as "200" or any non-number compares unequal. -/
def jsonEq200 : Json → Bool
  | .num q => q == 200
  | _ => false

/-- The three output label regions of the widget, plus the stylesheet of
the temperature label (the only one the code mutates). -/
structure AppState where
  temperature_style : String
  temperature_label : String
  emoji_label : String
  description_label : String
  deriving DecidableEq, Repr

/-- Outcome of the one `requests.get(url)` call. -/
inductive Transport where
  | connectionError
  | timeout
  | tooManyRedirects
  | otherRequestException
  | response (status : Nat) (body : Json)

/-- Python truthiness test `not api_key` on the result of `os.getenv`:
true for `None` and for the empty string. -/
def pyFalsy : Option String → Bool
  | none => true
  | some s => s == ""

/-- Round a rational to the nearest integer, ties to even, matching how
Python one-decimal float formatting resolves exact halves. -/
def roundHalfEven (q : ℚ) : ℤ :=
  let f := ⌊q⌋
  if q - f < 1 / 2 then f
  else if 1 / 2 < q - f then f + 1
  else if f % 2 = 0 then f else f + 1

/-- Python format `f"\x7btemperature:.1f\x7d"`: one decimal place. -/
def formatPy1f (q : ℚ) : String :=
  let n := roundHalfEven (q * 10)
  (if n < 0 then "-" else "") ++ toString (n.natAbs / 10) ++ "." ++ toString (n.natAbs % 10)

/-- Python `str.title()`: a letter after a non-letter is uppercased, a
letter after a letter is lowercased, non-letters pass through. -/
def titleGo : List Char → Bool → List Char
  | [], _ => []
  | c :: cs, prevAlpha =>
      (if c.isAlpha then (if prevAlpha then c.toLower else c.toUpper) else c)
        :: titleGo cs c.isAlpha

/-- `weather_description.title()` on a Lean string. -/
def pyTitle (s : String) : String := (titleGo s.toList false).asString

/-- `get_weather_emoji(weather_id)`: the elif cascade of range checks of
the source, over rational condition ids. -/
def get_weather_emoji (weather_id : ℚ) : String :=
  if 200 ≤ weather_id ∧ weather_id < 300 then "⛈️"
  else if 300 ≤ weather_id ∧ weather_id < 400 then "🌦"
  else if 500 ≤ weather_id ∧ weather_id < 600 then "🌧"
  else if 600 ≤ weather_id ∧ weather_id < 700 then "❅"
  else if 700 ≤ weather_id ∧ weather_id < 800 then "🌫"
  else if weather_id = 800 then "☀️"
  else if 801 ≤ weather_id ∧ weather_id < 900 then "⛅"
  else "❓"

/-- `display_error(message)`: 20px style, message into the temperature
label, the other two labels cleared. -/
def display_error (message : String) (st : AppState) : AppState :=
  { st with
    temperature_style := "font-size:20px;"
    temperature_label := message
    emoji_label := ""
    description_label := "" }

/-- `display_weather(data)`: extract `main.temp`, `weather[0].id`,
`weather[0].description`; convert Kelvin to Celsius; format and write the
three labels. Missing keys or wrong shapes surface as Python errors. -/
def display_weather (data : Json) (st : AppState) : Except PyError AppState := do
  let main ← data.getKey "main"
  let tempJ ← main.getKey "temp"
  let tempK ← tempJ.asNum
  let temperature := tempK - 273.15
  let weather ← data.getKey "weather"
  let w0 ← weather.getIdx 0
  let idJ ← w0.getKey "id"
  let weather_id ← idJ.asNum
  let descJ ← w0.getKey "description"
  let weather_description ← descJ.asStr
  pure
    { st with
      temperature_style := "font-size:75px;"
      temperature_label := formatPy1f temperature ++ "°C"
      emoji_label := get_weather_emoji weather_id
      description_label := pyTitle weather_description }

/-- The `match response.status_code` cascade of `get_weather`: fixed
messages for eight codes, a generic message carrying the code otherwise. -/
def statusMessage (status : Nat) : String :=
  if status = 400 then "Error: Bad request. Please check the city name."
  else if status = 401 then "Error: Unauthorized. Please check your API key."
  else if status = 403 then "Error: Forbidden. You don\u0027t have permission to access this resource."
  else if status = 404 then "Error: City not found."
  else if status = 500 then "Error: Internal server error. Please try again later."
  else if status = 502 then "Error: Bad gateway. Please try again later."
  else if status = 503 then "Error: Service unavailable. Please try again later."
  else if status = 504 then "Error: Gateway timeout. Please try again later."
  else "Error: An unexpected error occurred. Status code: " ++ toString status

/-- `get_weather(self)`: the trigger handler. Returns the Except-wrapped
resulting state (an `error` is a Python exception escaping the handler)
paired with the number of network calls made. `requests.get` is reached
only when the credential is truthy; `raise_for_status` raises `HTTPError`
exactly for statuses in [400, 600). -/
def get_weather (apiKey : Option String) (tr : Transport) (st : AppState) :
    Except PyError AppState × Nat :=
  if pyFalsy apiKey then
    (.ok (display_error "Error: API key not found. Please set WEATHER_API_KEY in .env file." st), 0)
  else
    let res : Except PyError AppState :=
      match tr with
      | .connectionError =>
         .ok (display_error "Error: Unable to connect to the weather service. Please check your internet connection." st)
      | .timeout =>
         .ok (display_error "Error: The request timed out. Please try again later." st)
      | .tooManyRedirects =>
         .ok (display_error "Error: Too many redirects. Please check the URL." st)
      | .otherRequestException =>
         .ok (display_error "Error: Unable to retrieve weather data." st)
      | .response status body =>
         if 400 ≤ status ∧ status < 600 then
           .ok (display_error (statusMessage status) st)
         else do
           let cod ← body.getKey "cod"
           if jsonEq200 cod then display_weather body st else pure st
    (res, 1)

/-- The request URL built by `get_weather` (query string interpolation). -/
def requestUrl (city apiKey : String) : String :=
  "https://api.openweathermap.org/data/2.5/weather?q=" ++ city ++ "&appid=" ++ apiKey

/-- A well-shaped response body: `cod`, `main.temp`, `weather[0].id`,
`weather[0].description`. -/
def mkBody (cod : Json) (temp : ℚ) (wid : ℚ) (desc : String) : Json :=
  .obj [("cod", cod),
        ("main", .obj [("temp", .num temp)]),
        ("weather", .arr [.obj [("id", .num wid), ("description", .str desc)]])]

/-- The message `display_error` receives for each caught lookup failure
of `get_weather`; `none` when the path does not display an error. -/
def errorMessageOf : Transport → Option String
  | .connectionError =>
      some "Error: Unable to connect to the weather service. Please check your internet connection."
  | .timeout => some "Error: The request timed out. Please try again later."
  | .tooManyRedirects => some "Error: Too many redirects. Please check the URL."
  | .otherRequestException => some "Error: Unable to retrieve weather data."
  | .response status _ =>
      if 400 ≤ status ∧ status < 600 then some (statusMessage status) else none

/-- A display state with stale content in every region, for frame tests. -/
def sampleState : AppState :=
  { temperature_style := "font-size:75px;"
    temperature_label := "old temperature"
    emoji_label := "⛅"
    description_label := "old description" }

/-- Helper for `capitalizeWordsSpec`: tracks whether the next character
starts a word. -/
def capWordsGo : List Char → Bool → List Char
  | [], _ => []
  | c :: cs, atStart => (if atStart then c.toUpper else c) :: capWordsGo cs (c == ' ')

/-- Capitalisation as the spec sentence words it, for refinement
comparison with `pyTitle`: uppercase the first letter of each
space-separated word and leave every other character unchanged. -/
def capitalizeWordsSpec (s : String) : String :=
  (capWordsGo s.toList true).asString

/-- Bucket characterisation of the elif cascade over integer condition
ids, bridging the rational comparisons of the source to integer ranges. -/
theorem emoji_int (n : ℤ) :
    get_weather_emoji (n : ℚ) =
      if 200 ≤ n ∧ n < 300 then "⛈️"
      else if 300 ≤ n ∧ n < 400 then "🌦"
      else if 500 ≤ n ∧ n < 600 then "🌧"
      else if 600 ≤ n ∧ n < 700 then "❅"
      else if 700 ≤ n ∧ n < 800 then "🌫"
      else if n = 800 then "☀️"
      else if 801 ≤ n ∧ n < 900 then "⛅"
      else "❓" := by
  unfold get_weather_emoji
  norm_cast

/-- Reduction of the trigger handler to its response body processing,
for a truthy credential and a status outside the HTTPError band. -/
theorem get_weather_2xx (key : String) (hk : key ≠ "") (status : Nat)
    (hs : ¬(400 ≤ status ∧ status < 600)) (body : Json) (st : AppState) :
    get_weather (some key) (.response status body) st =
      ((do
        let cod ← body.getKey "cod"
        if jsonEq200 cod then display_weather body st else pure st), 1) := by
  rw [get_weather, if_neg, if_neg hs]
  simp [pyFalsy, hk]

/-- Reduction of the cod guard once the cod lookup has succeeded. -/
theorem handle_cod (body : Json) (c : Json) (hcod : body.getKey "cod" = .ok c)
    (st : AppState) :
    (do
      let cod ← body.getKey "cod"
      if jsonEq200 cod then display_weather body st else pure st) =
      if jsonEq200 c then display_weather body st else Except.ok st := by
  rw [hcod]
  rfl

/-- Reduction of the trigger handler for a truthy credential and a
status in the HTTPError band. -/
theorem get_weather_httpError (key : String) (hk : key ≠ "") (status : Nat)
    (hs : 400 ≤ status ∧ status < 600) (body : Json) (st : AppState) :
    get_weather (some key) (.response status body) st =
      (.ok (display_error (statusMessage status) st), 1) := by
  rw [get_weather, if_neg, if_pos hs]
  simp [pyFalsy, hk]

/-- Claim C1: get_weather_emoji maps [200,300) to the thunderstorm icon,
[300,400) to drizzle, [500,600) to rain, [600,700) to snow, [700,800) to
atmosphere, exactly 800 to clear sky, [801,900) to clouds, and every
other integer, the gap [400,500), negatives and values at least 900
included, to the unknown icon. -/
theorem emoji_buckets (n : ℤ) :
    ((200 ≤ n ∧ n < 300) → get_weather_emoji (n : ℚ) = "⛈️") ∧
    ((300 ≤ n ∧ n < 400) → get_weather_emoji (n : ℚ) = "🌦") ∧
    ((500 ≤ n ∧ n < 600) → get_weather_emoji (n : ℚ) = "🌧") ∧
    ((600 ≤ n ∧ n < 700) → get_weather_emoji (n : ℚ) = "❅") ∧
    ((700 ≤ n ∧ n < 800) → get_weather_emoji (n : ℚ) = "🌫") ∧
    (n = 800 → get_weather_emoji (n : ℚ) = "☀️") ∧
    ((801 ≤ n ∧ n < 900) → get_weather_emoji (n : ℚ) = "⛅") ∧
    (¬((200 ≤ n ∧ n < 300) ∨ (300 ≤ n ∧ n < 400) ∨ (500 ≤ n ∧ n < 600) ∨
        (600 ≤ n ∧ n < 700) ∨ (700 ≤ n ∧ n < 800) ∨ n = 800 ∨
        (801 ≤ n ∧ n < 900)) →
      get_weather_emoji (n : ℚ) = "❓") := by
  refine ⟨?_, ?_, ?_, ?_, ?_, ?_, ?_, ?_⟩ <;>
    (intro h; rw [emoji_int]; split_ifs <;> first | rfl | omega)

/-- Witness for C1: one integer per bucket, plus the [400,500) gap. -/
theorem emoji_buckets_witness :
    get_weather_emoji ((250 : ℤ) : ℚ) = "⛈️" ∧
    get_weather_emoji ((350 : ℤ) : ℚ) = "🌦" ∧
    get_weather_emoji ((550 : ℤ) : ℚ) = "🌧" ∧
    get_weather_emoji ((650 : ℤ) : ℚ) = "❅" ∧
    get_weather_emoji ((750 : ℤ) : ℚ) = "🌫" ∧
    get_weather_emoji ((800 : ℤ) : ℚ) = "☀️" ∧
    get_weather_emoji ((850 : ℤ) : ℚ) = "⛅" ∧
    get_weather_emoji ((450 : ℤ) : ℚ) = "❓" :=
  ⟨(emoji_buckets 250).1 (by decide),
   (emoji_buckets 350).2.1 (by decide),
   (emoji_buckets 550).2.2.1 (by decide),
   (emoji_buckets 650).2.2.2.1 (by decide),
   (emoji_buckets 750).2.2.2.2.1 (by decide),
   (emoji_buckets 800).2.2.2.2.2.1 (by decide),
   (emoji_buckets 850).2.2.2.2.2.2.1 (by decide),
   (emoji_buckets 450).2.2.2.2.2.2.2 (by decide)⟩

/-- Counterexample to claim C2 as stated: status 304 is not 2xx and is
unmapped, yet the handler displays nothing at all, because
raise_for_status only raises for statuses in [400, 600); the stale label
is retained and does not contain 304. -/
theorem http_table_counterexample :
    (get_weather (some "k") (.response 304 (Json.obj [("cod", Json.num 0)])) sampleState).1
      = .ok sampleState ∧
    sampleState.temperature_label = "old temperature" ∧
    statusMessage 304 = "Error: An unexpected error occurred. Status code: 304" ∧
    sampleState.temperature_label ≠ statusMessage 304 := by
  refine ⟨?_, rfl, rfl, by decide⟩
  rw [get_weather_2xx "k" (by decide) 304 (by omega)]
  rfl

/-- Claim C2 (amended to the 4xx and 5xx statuses that raise HTTPError):
for every status in [400, 600) the displayed message comes from the
static table; the eight listed codes have their fixed messages, 404 maps
to exactly "Error: City not found.", and every other such status gets
the generic message carrying the numeric code. -/
theorem http_table_amended (key : String) (hk : key ≠ "") (status : Nat)
    (h4 : 400 ≤ status) (h6 : status < 600) (body : Json) (st : AppState) :
    (get_weather (some key) (.response status body) st).1
      = .ok (display_error (statusMessage status) st) ∧
    statusMessage 400 = "Error: Bad request. Please check the city name." ∧
    statusMessage 401 = "Error: Unauthorized. Please check your API key." ∧
    statusMessage 403 = "Error: Forbidden. You don\u0027t have permission to access this resource." ∧
    statusMessage 404 = "Error: City not found." ∧
    statusMessage 500 = "Error: Internal server error. Please try again later." ∧
    statusMessage 502 = "Error: Bad gateway. Please try again later." ∧
    statusMessage 503 = "Error: Service unavailable. Please try again later." ∧
    statusMessage 504 = "Error: Gateway timeout. Please try again later." ∧
    (status ≠ 400 → status ≠ 401 → status ≠ 403 → status ≠ 404 → status ≠ 500 →
      status ≠ 502 → status ≠ 503 → status ≠ 504 →
      statusMessage status =
        "Error: An unexpected error occurred. Status code: " ++ toString status) := by
  refine ⟨?_, rfl, rfl, rfl, rfl, rfl, rfl, rfl, rfl, ?_⟩
  · rw [get_weather_httpError key hk status ⟨h4, h6⟩]
  · intro n400 n401 n403 n404 n500 n502 n503 n504
    unfold statusMessage
    split_ifs <;> first | rfl | omega

/-- Witness for C2 (amended), at the unmapped teapot status 418. -/
theorem http_table_amended_witness :
    (get_weather (some "k") (.response 418 (Json.obj [])) sampleState).1
      = .ok (display_error (statusMessage 418) sampleState) ∧
    statusMessage 418 = "Error: An unexpected error occurred. Status code: 418" :=
  ⟨(http_table_amended "k" (by decide) 418 (by omega) (by omega) (Json.obj []) sampleState).1,
   rfl⟩

/-- Claim C3: on a successful reading the displayed temperature is
main.temp minus the exact constant 273.15, formatted to one decimal and
suffixed with the Celsius marker; main.temp 295.15 displays as 22.0 C. -/
theorem temperature_display (k wid : ℚ) (desc : String) (st : AppState) :
    display_weather (mkBody (.num 200) k wid desc) st =
      .ok { temperature_style := "font-size:75px;"
            temperature_label := formatPy1f (k - 273.15) ++ "°C"
            emoji_label := get_weather_emoji wid
            description_label := pyTitle desc } ∧
    formatPy1f ((295.15 : ℚ) - 273.15) ++ "°C" = "22.0°C" := by
  constructor
  · rfl
  · norm_num [formatPy1f, roundHalfEven]
    rfl

/-- Claim C4: with no credential configured the trigger displays exactly
the fixed missing-key message and makes zero network calls. -/
theorem missing_key_no_call (tr : Transport) (st : AppState) :
    get_weather none tr st =
      (.ok { temperature_style := "font-size:20px;"
             temperature_label := "Error: API key not found. Please set WEATHER_API_KEY in .env file."
             emoji_label := ""
             description_label := "" }, 0) := rfl

/-- Claim C5: a 2xx response whose body carries a cod field that is not
literally the number 200 is a silent no-op; all regions keep their prior
content. -/
theorem cod_mismatch_silent (key : String) (hk : key ≠ "") (status : Nat)
    (h2a : 200 ≤ status) (h2b : status < 300) (cod : Json)
    (hc : jsonEq200 cod = false) (rest : List (String × Json)) (st : AppState) :
    get_weather (some key) (.response status (.obj (("cod", cod) :: rest))) st =
      (.ok st, 1) := by
  have h1 : (Json.obj (("cod", cod) :: rest)).getKey "cod" = .ok cod := by
    simp [Json.getKey, List.lookup]
  rw [get_weather_2xx key hk status (by omega), handle_cod _ cod h1 st]
  simp [hc]

/-- Witness for C5: status 200 with a string cod of "404". -/
theorem cod_mismatch_silent_witness :
    get_weather (some "k") (.response 200 (.obj [("cod", .str "404")])) sampleState =
      (.ok sampleState, 1) :=
  cod_mismatch_silent "k" (by decide) 200 (by omega) (by omega) (.str "404") rfl [] sampleState

/-- Claim C6: every caught lookup failure enters the error state: the
temperature label holds the mapped message and the emoji and description
labels are cleared. -/
theorem error_display_regions (key : String) (hk : key ≠ "") (tr : Transport)
    (msg : String) (hmsg : errorMessageOf tr = some msg) (st : AppState) :
    (get_weather (some key) tr st).1 =
      .ok { temperature_style := "font-size:20px;"
            temperature_label := msg
            emoji_label := ""
            description_label := "" } := by
  cases tr with
  | response status body =>
      simp only [errorMessageOf] at hmsg
      split_ifs at hmsg with hs
      injection hmsg with h
      subst h
      rw [get_weather_httpError key hk status hs]
      rfl
  | connectionError =>
      injection hmsg with h
      subst h
      rw [get_weather, if_neg (by simp [pyFalsy, hk])]
      rfl
  | timeout =>
      injection hmsg with h
      subst h
      rw [get_weather, if_neg (by simp [pyFalsy, hk])]
      rfl
  | tooManyRedirects =>
      injection hmsg with h
      subst h
      rw [get_weather, if_neg (by simp [pyFalsy, hk])]
      rfl
  | otherRequestException =>
      injection hmsg with h
      subst h
      rw [get_weather, if_neg (by simp [pyFalsy, hk])]
      rfl

/-- Witness for C6: a connection failure. -/
theorem error_display_regions_witness :
    (get_weather (some "k") .connectionError sampleState).1 =
      .ok { temperature_style := "font-size:20px;"
            temperature_label := "Error: Unable to connect to the weather service. Please check your internet connection."
            emoji_label := ""
            description_label := "" } :=
  error_display_regions "k" (by decide) .connectionError _ rfl sampleState

/-- Counterexample to claim C7 as stated: for the description "NYC haze"
the code displays "Nyc Haze", while the description with each word
having only its first letter capitalized is "NYC Haze". -/
theorem title_casing_counterexample :
    Except.map (fun s => s.description_label)
        (display_weather (mkBody (.num 200) 295.15 500 "NYC haze") sampleState) =
      .ok "Nyc Haze" ∧
    capitalizeWordsSpec "NYC haze" = "NYC Haze" ∧
    ("Nyc Haze" : String) ≠ "NYC Haze" :=
  ⟨rfl, rfl, by decide⟩

/-- Claim C7 (amended): the description region shows the description in
Python title case, first letter of each word uppercased and the other
letters lowercased; "light rain" displays as "Light Rain". -/
theorem title_casing_amended (k wid : ℚ) (desc : String) (st : AppState) :
    Except.map (fun s => s.description_label)
        (display_weather (mkBody (.num 200) k wid desc) st) = .ok (pyTitle desc) ∧
    pyTitle "light rain" = "Light Rain" :=
  ⟨rfl, rfl⟩

/-- Claim C8: with a truthy credential, every trigger performs exactly
one network call, whatever the outcome of that call. -/
theorem single_network_call (key : String) (hk : key ≠ "") (tr : Transport)
    (st : AppState) :
    (get_weather (some key) tr st).2 = 1 := by
  rw [get_weather.eq_def, if_neg (by simp [pyFalsy, hk])]

/-- Witness for C8: a timed-out call still counts as one call. -/
theorem single_network_call_witness :
    (get_weather (some "k") .timeout sampleState).2 = 1 :=
  single_network_call "k" (by decide) .timeout sampleState

/-- Claim C9: a 2xx response lacking the cod key, or with cod 200 but a
body missing main, main.temp, weather, weather[0], weather[0].id or
weather[0].description, escapes the handler as a KeyError or IndexError;
no message is displayed. -/
theorem missing_fields_uncaught (key : String) (hk : key ≠ "") (status : Nat)
    (h2a : 200 ≤ status) (h2b : status < 300) (st : AppState) :
    (get_weather (some key) (.response status
        (.obj [("main", .obj [("temp", .num 300)])])) st).1
      = .error (.keyError "cod") ∧
    (get_weather (some key) (.response status
        (.obj [("cod", .num 200)])) st).1
      = .error (.keyError "main") ∧
    (get_weather (some key) (.response status
        (.obj [("cod", .num 200), ("main", .obj []),
               ("weather", .arr [.obj [("id", .num 800), ("description", .str "clear sky")]])])) st).1
      = .error (.keyError "temp") ∧
    (get_weather (some key) (.response status
        (.obj [("cod", .num 200), ("main", .obj [("temp", .num 300)])])) st).1
      = .error (.keyError "weather") ∧
    (get_weather (some key) (.response status
        (.obj [("cod", .num 200), ("main", .obj [("temp", .num 300)]),
               ("weather", .arr [])])) st).1
      = .error .indexError ∧
    (get_weather (some key) (.response status
        (.obj [("cod", .num 200), ("main", .obj [("temp", .num 300)]),
               ("weather", .arr [.obj [("description", .str "clear sky")]])])) st).1
      = .error (.keyError "id") ∧
    (get_weather (some key) (.response status
        (.obj [("cod", .num 200), ("main", .obj [("temp", .num 300)]),
               ("weather", .arr [.obj [("id", .num 800)]])])) st).1
      = .error (.keyError "description") := by
  have hs : ¬(400 ≤ status ∧ status < 600) := by omega
  refine ⟨?_, ?_, ?_, ?_, ?_, ?_, ?_⟩ <;> (rw [get_weather_2xx key hk status hs]; rfl)

/-- Witness for C9: the seven malformed bodies at status 200. -/
theorem missing_fields_uncaught_witness :
    (get_weather (some "k") (.response 200
        (.obj [("main", .obj [("temp", .num 300)])])) sampleState).1
      = .error (.keyError "cod") ∧
    (get_weather (some "k") (.response 200
        (.obj [("cod", .num 200)])) sampleState).1
      = .error (.keyError "main") ∧
    (get_weather (some "k") (.response 200
        (.obj [("cod", .num 200), ("main", .obj []),
               ("weather", .arr [.obj [("id", .num 800), ("description", .str "clear sky")]])])) sampleState).1
      = .error (.keyError "temp") ∧
    (get_weather (some "k") (.response 200
        (.obj [("cod", .num 200), ("main", .obj [("temp", .num 300)])])) sampleState).1
      = .error (.keyError "weather") ∧
    (get_weather (some "k") (.response 200
        (.obj [("cod", .num 200), ("main", .obj [("temp", .num 300)]),
               ("weather", .arr [])])) sampleState).1
      = .error .indexError ∧
    (get_weather (some "k") (.response 200
        (.obj [("cod", .num 200), ("main", .obj [("temp", .num 300)]),
               ("weather", .arr [.obj [("description", .str "clear sky")]])])) sampleState).1
      = .error (.keyError "id") ∧
    (get_weather (some "k") (.response 200
        (.obj [("cod", .num 200), ("main", .obj [("temp", .num 300)]),
               ("weather", .arr [.obj [("id", .num 800)]])])) sampleState).1
      = .error (.keyError "description") :=
  missing_fields_uncaught "k" (by decide) 200 (by omega) (by omega) sampleState

/-- Claim C10: an empty-string credential behaves exactly like an absent
one: the fixed missing-key message is displayed and no call is made. -/
theorem empty_key_as_missing (tr : Transport) (st : AppState) :
    get_weather (some "") tr st = get_weather none tr st ∧
    get_weather (some "") tr st =
      (.ok { temperature_style := "font-size:20px;"
             temperature_label := "Error: API key not found. Please set WEATHER_API_KEY in .env file."
             emoji_label := ""
             description_label := "" }, 0) :=
  ⟨rfl, rfl⟩

end WeatherApp
